import Mathlib

/-!
Shallow embedding of the `arbi-m-tg-bot` warehouse bot (second generation,
`src/warehouse_bot/`) for checking the natural-language specification
against the code.  Python `datetime` values are modelled as integers
(arbitrary time ticks; `timedelta(minutes=m)` adds `m` in the same unit),
numeric CRM identifiers as `Nat`, chat identifiers as `Int`, and monetary
amounts as exact rationals or minor-unit naturals, as in the source.
-/

namespace WarehouseBot

/-- Enumeration of order statuses, from
`src/domain/value_objects/order_status.py` (`class OrderStatus(str, Enum)`).
The canonical wire value of each constructor is given by `OrderStatus.value`. -/
inductive OrderStatus where
  | new
  | sentToPartner
  | acceptedByPartner
  | cooking
  | readyForDelivery
  | onDelivery
  | delivered
  | cancelled
deriving DecidableEq, Repr

/-- Canonical slug value of a status (the Python enum member values). -/
def OrderStatus.value : OrderStatus → String
  | .new => "new"
  | .sentToPartner => "sent_to_partner"
  | .acceptedByPartner => "accepted_by_partner"
  | .cooking => "cooking"
  | .readyForDelivery => "ready_for_delivery"
  | .onDelivery => "on_delivery"
  | .delivered => "delivered"
  | .cancelled => "cancelled"

/-- List of all statuses, in declaration order (iteration order of `for status in cls`). -/
def OrderStatus.all : List OrderStatus :=
  [.new, .sentToPartner, .acceptedByPartner, .cooking,
   .readyForDelivery, .onDelivery, .delivered, .cancelled]

/-- Fallback mapping used by `OrderStatus.from_value` after the exact-value
scan: slugs again, Russian labels, and alternative labels, exactly the
`status_mapping` dict in `order_status.py` lines 48-72. -/
def OrderStatus.statusMapping : List (String × OrderStatus) :=
  [("new", .new),
   ("sent_to_partner", .sentToPartner),
   ("accepted_by_partner", .acceptedByPartner),
   ("cooking", .cooking),
   ("ready_for_delivery", .readyForDelivery),
   ("on_delivery", .onDelivery),
   ("delivered", .delivered),
   ("cancelled", .cancelled),
   ("Новый", .new),
   ("Отправлен партнёру", .sentToPartner),
   ("Принят партнёром", .acceptedByPartner),
   ("Готовится", .cooking),
   ("Готов к доставке", .readyForDelivery),
   ("На доставке", .onDelivery),
   ("Доставлен", .delivered),
   ("Отменён", .cancelled),
   ("Ожидает сборки", .new),
   ("Ожидает подтверждения", .acceptedByPartner),
   ("Заказ подтвержден", .cooking),
   ("Заказ доставляется", .readyForDelivery),
   ("Заказ завершен", .delivered)]

/-- Lookup of a key in an association list, the `dict.get` of the
`status_mapping` dict. -/
def lookupKey (v : String) : List (String × OrderStatus) → Option OrderStatus
  | [] => none
  | (k, s) :: rest => if k = v then some s else lookupKey v rest

/-- Embedding of `OrderStatus.from_value`: first scan the enum members for an
exact `value` match, then fall back to `status_mapping.get(value, cls.NEW)`. -/
def OrderStatus.fromValue (v : String) : OrderStatus :=
  match OrderStatus.all.find? (fun s => s.value = v) with
  | some s => s
  | none =>
    match lookupKey v OrderStatus.statusMapping with
    | some s => s
    | none => .new

/-- Embedding of `OrderService.can_transition_status`
(`src/domain/services/order_service.py` lines 29-51): the `valid_transitions`
dict, membership-tested on the target status. -/
def canTransitionStatus (fromStatus toStatus : OrderStatus) : Bool :=
  let valid : List OrderStatus :=
    match fromStatus with
    | .new => [.sentToPartner]
    | .sentToPartner => [.acceptedByPartner, .cancelled]
    | .acceptedByPartner => [.cooking, .cancelled]
    | .cooking => [.readyForDelivery, .cancelled]
    | .readyForDelivery => [.onDelivery, .cancelled]
    | .onDelivery => [.delivered, .cancelled]
    | .delivered => []
    | .cancelled => []
  valid.contains toStatus

/-- Money value object (`src/domain/value_objects/money.py`): an amount in
minor currency units (kopecks), validated non-negative, hence `Nat`. -/
structure Money where
  amount : Nat
deriving DecidableEq, Repr

/-- Numeric content of the formatted decimal string `"X.YY RUB"` produced by
`Money.formatted_amount`: the digits before the dot and the two fraction
digits (the value of `Decimal(amount) / 100` rendered with `:.2f`). -/
structure DecimalRepr where
  intPart : Nat
  fracPart : Nat
deriving DecidableEq, Repr

/-- Embedding of the `Money.formatted_amount` property: formatting
`Decimal(amount) / 100` with two fraction digits splits the minor-unit
amount into whole rubles and a two-digit kopeck remainder. -/
def Money.formattedAmount (m : Money) : DecimalRepr :=
  ⟨m.amount / 100, m.amount % 100⟩

/-- Rendering of the formatted decimal as the literal `"X.YY RUB"` string
(the `f"\x7bself.decimal_amount:.2f\x7d RUB"` format). -/
def DecimalRepr.render (d : DecimalRepr) : String :=
  toString d.intPart ++ "." ++ (if d.fracPart < 10 then "0" else "") ++ toString d.fracPart ++ " RUB"

/-- Embedding of `Money.from_decimal` applied to a two-fraction-digit decimal
string: `int(Decimal(s) * 100)` is exact on such inputs and equals
`intPart * 100 + fracPart`. -/
def Money.fromDecimal (d : DecimalRepr) : Money :=
  ⟨d.intPart * 100 + d.fracPart⟩

/-- CookingTime value object (`src/domain/value_objects/cooking_time.py`):
minutes, validated `0 < minutes ≤ 180` at construction. -/
structure CookingTime where
  minutes : Nat
deriving DecidableEq, Repr

/-- Validation performed by the `CookingTime` pydantic field and validator. -/
def CookingTime.valid (c : CookingTime) : Prop :=
  0 < c.minutes ∧ c.minutes ≤ 180

/-- One purchased product line (`OrderItem` in `src/domain/entities/order.py`). -/
structure OrderItem where
  id : String
  name : String
  quantity : Nat
  price : Money
deriving DecidableEq, Repr

/-- Order entity (`Order` in `src/domain/entities/order.py`).  Datetimes are
integer ticks; the CRM order and warehouse identifiers are modelled as `Nat`
(the Python code stores them as numeric strings and compares them via both
`str(...)` and `int(...)`, which agree on canonical numeric ids). -/
structure Order where
  id : Nat
  orderNumber : String
  warehouseId : Nat
  createdAt : Int
  customerName : String
  customerPhone : String
  deliveryAddress : String
  items : List OrderItem
  totalAmount : Money
  comment : Option String
  paymentType : String
  status : OrderStatus
  acceptedAt : Option Int
  cookingTimeMinutes : Option Nat
  expectedReadyAt : Option Int
  courierAssignedAt : Option Int
  deliveredAt : Option Int
  photos : List String
deriving DecidableEq, Repr

/-- Embedding of `Order.add_photo`: appends if strictly under the configured
cap (`settings.security.max_photos_per_order = 3`), else raises `ValueError`. -/
def Order.addPhoto (o : Order) (photoUrl : String) : Except String Order :=
  if o.photos.length ≥ 3 then
    .error "Maximum number of photos per order is 3"
  else
    .ok { o with photos := o.photos ++ [photoUrl] }

/-- Errors raised by the order lifecycle service (`ValueError` with an
invalid-state message in the Python code). -/
inductive SvcError where
  | invalidState
deriving DecidableEq, Repr

/-- Embedding of `OrderService.accept_order` (order_service.py lines 53-98):
requires `status = sent_to_partner`, else `ValueError`; sets
`status = accepted_by_partner` and `accepted_at`. -/
def acceptOrder (order : Order) (acceptedAt : Int) : Except SvcError Order :=
  if order.status ≠ OrderStatus.sentToPartner then
    .error .invalidState
  else
    .ok { order with status := .acceptedByPartner, acceptedAt := some acceptedAt }

/-- Embedding of `OrderService.set_cooking_time` (order_service.py lines
100-155): requires `status ∈ \x7baccepted_by_partner, cooking\x7d`; when
`expected_ready_at` is not supplied it is `accepted_at + minutes` if
`accepted_at` is set, else `now + minutes`; sets status `cooking`,
`cooking_time_minutes` and `expected_ready_at`.  `now` stands for
`datetime.utcnow()`. -/
def setCookingTime (order : Order) (cookingTime : CookingTime)
    (expectedReadyAt : Option Int) (now : Int) : Except SvcError Order :=
  if order.status ≠ OrderStatus.acceptedByPartner ∧ order.status ≠ OrderStatus.cooking then
    .error .invalidState
  else
    let ready : Int :=
      match expectedReadyAt with
      | some t => t
      | none =>
        match order.acceptedAt with
        | some a => a + cookingTime.minutes
        | none => now + cookingTime.minutes
    .ok { order with
            status := .cooking,
            cookingTimeMinutes := some cookingTime.minutes,
            expectedReadyAt := some ready }

/-- Embedding of `OrderService.mark_as_ready_for_delivery` (lines 157-195):
requires `status = cooking`; sets `status = ready_for_delivery`. -/
def markAsReadyForDelivery (order : Order) : Except SvcError Order :=
  if order.status ≠ OrderStatus.cooking then
    .error .invalidState
  else
    .ok { order with status := .readyForDelivery }

/-- Embedding of `OrderService.assign_courier` (lines 197-236): requires
`status = ready_for_delivery`; sets `status = on_delivery` and
`courier_assigned_at = now`. -/
def assignCourier (order : Order) (now : Int) : Except SvcError Order :=
  if order.status ≠ OrderStatus.readyForDelivery then
    .error .invalidState
  else
    .ok { order with status := .onDelivery, courierAssignedAt := some now }

/-- Embedding of `OrderService.mark_as_delivered` (lines 238-277): requires
`status = on_delivery`; sets `status = delivered` and `delivered_at = now`. -/
def markAsDelivered (order : Order) (now : Int) : Except SvcError Order :=
  if order.status ≠ OrderStatus.onDelivery then
    .error .invalidState
  else
    .ok { order with status := .delivered, deliveredAt := some now }

/-- Embedding of `OrderService.cancel_order` (lines 279-318): fails iff the
status is `delivered` or `cancelled`; sets `status = cancelled`. -/
def cancelOrder (order : Order) : Except SvcError Order :=
  if order.status = OrderStatus.delivered ∨ order.status = OrderStatus.cancelled then
    .error .invalidState
  else
    .ok { order with status := .cancelled }

/-- Warehouse entity / local DB row (`src/domain/entities/warehouse.py` and
the `warehouses` table of `warehouse_model.py`); datetimes are integer ticks. -/
structure Warehouse where
  id : Nat
  name : String
  address : String
  telegramChatId : Option Int
  activatedAt : Option Int
  deactivatedAt : Option Int
  isActive : Bool
  activationCode : Option String
  maxOrdersPerDay : Nat
  timezone : String
deriving DecidableEq, Repr

/-- Exceptions raised by the application use cases
(`src/application/exceptions.py`). -/
inductive UCError where
  | warehouseNotFound
  | orderNotFound
  | orderAlreadyAccepted
  | invalidState
  | statisticsCalculation
deriving DecidableEq, Repr

/-- Request payload of the accept-order use case (`AcceptOrderDTO`). -/
structure AcceptOrderDTO where
  orderId : Nat
  warehouseId : Nat
  chatId : Int
deriving DecidableEq, Repr

/-- Embedding of `AcceptOrderUseCase.execute`
(`src/application/use_cases/order_management.py` lines 62-196).
`getWarehouse` stands for `warehouse_db_repository.get_by_id`, `getOrder` for
`order_repository.get_by_id`; the repository `update` and the best-effort CRM
notification do not alter the returned order (a CRM failure is logged and
swallowed), so they are not modelled as separate effects. -/
def acceptOrderUseCase (getWarehouse : Nat → Option Warehouse)
    (getOrder : Nat → Option Order) (data : AcceptOrderDTO) (now : Int) :
    Except UCError Order :=
  match getWarehouse data.warehouseId with
  | none => .error .warehouseNotFound
  | some warehouse =>
    if warehouse.telegramChatId ≠ some data.chatId then
      .error .warehouseNotFound
    else
      match getOrder data.orderId with
      | none => .error .orderNotFound
      | some order =>
        if order.status = OrderStatus.acceptedByPartner ∨
           order.status = OrderStatus.cooking ∨
           order.status = OrderStatus.readyForDelivery ∨
           order.status = OrderStatus.onDelivery ∨
           order.status = OrderStatus.delivered then
          if order.warehouseId = data.warehouseId ∧
             order.status = OrderStatus.acceptedByPartner then
            .ok order
          else
            .error .orderAlreadyAccepted
        else if order.warehouseId ≠ data.warehouseId then
          .error .orderNotFound
        else
          match acceptOrder order now with
          | .error _ => .error .invalidState
          | .ok updated => .ok updated

/-- Request payload of the add-photo use case (`AddOrderPhotoDTO`). -/
structure AddOrderPhotoDTO where
  orderId : Nat
  warehouseId : Nat
  chatId : Int
  photoUrl : String
deriving DecidableEq, Repr

/-- Embedding of `AddOrderPhotoUseCase.execute` (order_management.py lines
754-872).  After the warehouse/order resolution checks the use case only
forwards the photo to the CRM best-effort (`crm.add_order_photo`, any failure
logged and swallowed) and returns the fetched order as is: it never calls
`Order.add_photo`, never modifies `order.photos` and never checks the cap. -/
def addOrderPhotoUseCase (getWarehouse : Nat → Option Warehouse)
    (getOrder : Nat → Option Order) (data : AddOrderPhotoDTO) :
    Except UCError Order :=
  match getWarehouse data.warehouseId with
  | none => .error .warehouseNotFound
  | some warehouse =>
    if warehouse.telegramChatId ≠ some data.chatId then
      .error .warehouseNotFound
    else
      match getOrder data.orderId with
      | none => .error .orderNotFound
      | some order =>
        if order.warehouseId ≠ data.warehouseId then
          .error .orderNotFound
        else
          .ok order

/-- Row update applied by `deactivate_by_telegram_chat_id`
(`warehouse_local_repository_impl.py` lines 233-241): `is_active = False`,
`deactivated_at = utcnow()`, `telegram_chat_id = NULL`; every other column
keeps its value. -/
def deactivateRow (w : Warehouse) (now : Int) : Warehouse :=
  { w with isActive := false, deactivatedAt := some now, telegramChatId := none }

/-- Embedding of `WarehouseLocalRepositoryImpl.deactivate_by_telegram_chat_id`
(lines 217-252) over a table modelled as a list of rows.  `dbFail` models a
`SQLAlchemyError` raised by the storage layer: the `except` clauses log and
return `False`, and the uncommitted session leaves the table unchanged.
`scalar_one_or_none` yields the single matching row, `None` when there is no
match, and raises (caught, yielding `False`) when several rows match.
The subsequent `UPDATE` targets rows whose `id` equals the found row's id. -/
def deactivateByTelegramChatId (db : List Warehouse) (chatId : Int) (now : Int)
    (dbFail : Bool) : Bool × List Warehouse :=
  if dbFail then
    (false, db)
  else
    match db.filter (fun w => w.telegramChatId = some chatId) with
    | [] => (false, db)
    | [m] =>
      (true, db.map (fun w => if w.id = m.id then deactivateRow w now else w))
    | _ :: _ :: _ => (false, db)

/-- Outcome of one HTTP attempt inside `CRMClient._make_request`: either a
transport-level failure (`ClientError` / timeout / disconnect raised by the
request itself) or a response with an HTTP status and a parsed body. -/
inductive Attempt where
  | transportError
  | response (status : Nat) (body : String)
deriving DecidableEq, Repr

/-- Terminal outcome of `_make_request`:
`success` returns the parsed body (line 173); `noRetryError s n` is the
`IntegrationError` with `status_code = s` raised on attempt index `n` for a
no-retry status (lines 163-167); `retriesExhausted` is the `IntegrationError`
wrapping the last transport error once the counter exceeds `max_retries`
(lines 179-190); `unreachable` is the safety raise after the loop (line 204). -/
inductive ReqOutcome where
  | success (body : String)
  | noRetryError (status : Nat) (atAttempt : Nat)
  | retriesExhausted
  | unreachable
deriving DecidableEq, Repr

/-- Result of a `_make_request` run together with its effect counts:
how many HTTP attempts were issued and how many `asyncio.sleep(retry_delay)`
calls were made. -/
structure RunResult where
  outcome : ReqOutcome
  attemptsMade : Nat
  sleeps : Nat
deriving DecidableEq, Repr

/-- Body of the `while retry_count <= max_retries` loop of
`CRMClient._make_request` (crm_client.py lines 135-204).  `att n` is the
outcome of the n-th HTTP attempt; since the retry counter is incremented
exactly once per failed attempt and a successful attempt returns, the attempt
index always equals `retry_count` (`rc`).  `fuel` is the loop-termination
measure `max_retries + 1 - rc`; the top-level entry supplies
`fuel = max_retries + 1`, under which the `fuel = 0` branch (the line-204
safety raise) is unreachable.  A failure takes the `except` branch: the
counter is incremented, and either the exhaustion error is raised
(`rc + 1 > max_retries`) or a sleep precedes the next iteration. -/
def makeRequestLoop (noRetry : List Nat) (maxRetries expected : Nat)
    (att : Nat → Attempt) : Nat → Nat → RunResult
  | 0, _ => ⟨.unreachable, 0, 0⟩
  | fuel + 1, rc =>
    let transient : RunResult :=
      if rc + 1 > maxRetries then
        ⟨.retriesExhausted, 1, 0⟩
      else
        let r := makeRequestLoop noRetry maxRetries expected att fuel (rc + 1)
        ⟨r.outcome, r.attemptsMade + 1, r.sleeps + 1⟩
    match att rc with
    | .transportError => transient
    | .response s b =>
      if s = expected then
        ⟨.success b, 1, 0⟩
      else if s ∈ noRetry ∧ rc > 0 then
        ⟨.noRetryError s rc, 1, 0⟩
      else
        transient

/-- Embedding of `CRMClient._make_request`: the retry loop entered with
`retry_count = 0`. -/
def makeRequest (noRetry : List Nat) (maxRetries expected : Nat)
    (att : Nat → Attempt) : RunResult :=
  makeRequestLoop noRetry maxRetries expected att (maxRetries + 1) 0

/-- Statistics record assembled by the statistics use cases
(`stats_data` dict); revenue and average check are exact rationals standing
for the Python floats, whose values here are decimal literals. -/
structure StatsData where
  warehouseId : Nat
  totalOrders : Nat
  totalRevenue : Rat
  avgCheck : Rat
deriving DecidableEq, Repr

/-- Result of a weekly-statistics run together with its effect counts: the
cache writes performed (key `stats:week:<id>:<week-start>` with TTL 60) and
the number of CRM requests issued. -/
structure WeeklyRun where
  result : Except UCError StatsData
  cacheWrites : List (Nat × StatsData × Nat)
  crmCalls : Nat
deriving Repr

/-- Embedding of `GetWeeklyStatisticsUseCase.execute`
(`src/application/use_cases/statistics.py` lines 220-316).
`getWarehouse` stands for `warehouse_repository.get_by_id` and `cacheGet` for
`stats_cache.get` on the week cache key (keyed here by warehouse id; the date
component is fixed within one run).  On a cache miss the use case performs no
CRM request at all: it builds the hard-coded demo `stats_data` dict of lines
283-289 (126 orders, revenue 164780, average check 1307.78), caches it with
TTL 60 and returns it. -/
def getWeeklyStatisticsUseCase (getWarehouse : Nat → Option Warehouse)
    (cacheGet : Nat → Option StatsData) (warehouseId : Nat) (chatId : Int) :
    WeeklyRun :=
  match getWarehouse warehouseId with
  | none => ⟨.error .warehouseNotFound, [], 0⟩
  | some warehouse =>
    if warehouse.telegramChatId ≠ some chatId then
      ⟨.error .warehouseNotFound, [], 0⟩
    else
      match cacheGet warehouseId with
      | some cached => ⟨.ok cached, [], 0⟩
      | none =>
        let statsData : StatsData :=
          ⟨warehouseId, 126, (164780 : Rat), (130778 : Rat) / 100⟩
        ⟨.ok statsData, [(warehouseId, statsData, 60)], 0⟩

/-- Parsed JSON value, the shape of the webhook `payload` dict handed to the
route by FastAPI. -/
inductive JVal where
  | null
  | bool (b : Bool)
  | num (n : Int)
  | str (s : String)
  | arr (elems : List JVal)
  | obj (fields : List (String × JVal))

/-- Insertion sort of rendered object fields by key, modelling
`json.dumps(..., sort_keys=True)`. -/
def insertField (p : String × String) : List (String × String) → List (String × String)
  | [] => [p]
  | q :: rest => if p.1 ≤ q.1 then p :: q :: rest else q :: insertField p rest

/-- Sorting of rendered object fields by key. -/
def sortFields : List (String × String) → List (String × String)
  | [] => []
  | p :: rest => insertField p (sortFields rest)

mutual
/-- Embedding of `json.dumps(payload, sort_keys=True, separators=(",", ":"))`
used by `WebhookHandler._verify_signature` (webhook_handler.py line 142):
canonical serialization with keys sorted and compact separators (string
escaping is not modelled; keys and string values stand for their escaped
renderings). -/
def JVal.dumps : JVal → String
  | .null => "null"
  | .bool true => "true"
  | .bool false => "false"
  | .num n => toString n
  | .str s => "\"" ++ s ++ "\""
  | .arr xs => "[" ++ String.intercalate "," (dumpsList xs) ++ "]"
  | .obj fs =>
    "\x7b" ++
      String.intercalate ","
        ((sortFields (dumpsFields fs)).map (fun p => "\"" ++ p.1 ++ "\":" ++ p.2)) ++
    "\x7d"

/-- Serialization of the elements of a JSON array. -/
def dumpsList : List JVal → List String
  | [] => []
  | x :: xs => x.dumps :: dumpsList xs

/-- Serialization of the fields of a JSON object, keeping keys paired with
their rendered values. -/
def dumpsFields : List (String × JVal) → List (String × String)
  | [] => []
  | (k, v) :: fs => (k, v.dumps) :: dumpsFields fs
end

/-- Character-list equality without early exit: the comparison of
`hmac.compare_digest`, which examines every position regardless of earlier
mismatches. -/
def ctEqList : List Char → List Char → Bool
  | [], [] => true
  | [], _ :: _ => false
  | _ :: _, [] => false
  | x :: xs, y :: ys => ctEqList xs ys && decide (x = y)

/-- Embedding of `hmac.compare_digest` on hex-digest strings. -/
def compareDigest (a b : String) : Bool :=
  ctEqList a.data b.data

/-- Parsed `CreateOrderDTO` (incoming_orders.py lines 98-121).  Note the DTO
declares `order_number` but no `order_id` field. -/
structure CreateOrderDTO where
  orderNumber : String
  warehouseId : Nat
  customerName : String
  customerPhone : String
  deliveryAddress : String
  items : List (String × Nat × Rat)
  totalAmount : Rat
  comment : Option String
  paymentType : String
deriving DecidableEq, Repr

/-- Environment of the webhook route: the configured secret, the
HMAC-SHA256 hex digest function (abstract keyed hash, `key → message →
digest`), the pydantic validation of the payload, the warehouse repository
lookup and the Telegram send outcome. -/
structure WebhookDeps where
  secretKey : String
  hmacHex : String → String → String
  parseOrderDTO : JVal → Option CreateOrderDTO
  getWarehouse : Nat → Option Warehouse
  sendOk : Bool

/-- Embedding of `WebhookHandler._verify_signature` (lines 130-150): the
hex HMAC-SHA256 of the canonical sorted-key JSON re-serialization of the
parsed payload under the configured secret, compared with the presented
credential by `hmac.compare_digest`. -/
def verifySignature (deps : WebhookDeps) (payload : JVal) (signature : String) : Bool :=
  compareDigest (deps.hmacHex deps.secretKey payload.dumps) signature

/-- HTTP outcome of the new-order webhook route.  `attributeError` is the
unhandled `AttributeError` raised at line 77 when the handler reads
`order_data.order_id`, a field `CreateOrderDTO` does not declare; it occurs
after the warehouse checks and before any Telegram send. -/
inductive HttpOut where
  | unauthorized
  | badRequestInvalidData
  | warehouseNotFound404
  | badRequestInactive
  | attributeError
deriving DecidableEq, Repr

/-- Result of one webhook-route run with its effect counts: how many
warehouse-repository lookups were made and how many Telegram messages sent. -/
structure HandlerRun where
  result : HttpOut
  warehouseLookups : Nat
  messagesSent : Nat
deriving DecidableEq, Repr

/-- Embedding of `handle_new_order_webhook` (webhook_handler.py lines 39-98):
signature gate first (401 on mismatch), then DTO validation (400), warehouse
lookup (404 when absent), activation/binding check (400), then the message
build, which raises `AttributeError` on the undeclared `order_id` field. -/
def handleNewOrderWebhook (deps : WebhookDeps) (payload : JVal)
    (credential : String) : HandlerRun :=
  if ¬ verifySignature deps payload credential then
    ⟨.unauthorized, 0, 0⟩
  else
    match deps.parseOrderDTO payload with
    | none => ⟨.badRequestInvalidData, 0, 0⟩
    | some dto =>
      match deps.getWarehouse dto.warehouseId with
      | none => ⟨.warehouseNotFound404, 1, 0⟩
      | some warehouse =>
        if ¬ warehouse.isActive ∨ warehouse.telegramChatId = none then
          ⟨.badRequestInactive, 1, 0⟩
        else
          ⟨.attributeError, 1, 0⟩

/-- Sample order used by concrete witnesses and counterexamples, with a
chosen status and photo list. -/
def sampleOrder (st : OrderStatus) (photos : List String) : Order :=
  { id := 5, orderNumber := "ZK-5", warehouseId := 1, createdAt := 0,
    customerName := "Ivan", customerPhone := "+70000000000",
    deliveryAddress := "Main street 1", items := [], totalAmount := ⟨1000⟩,
    comment := none, paymentType := "cash", status := st, acceptedAt := none,
    cookingTimeMinutes := none, expectedReadyAt := none,
    courierAssignedAt := none, deliveredAt := none, photos := photos }

/-- Sample warehouse with id 1 bound to chat 10, used by concrete witnesses
and counterexamples. -/
def sampleWarehouse : Warehouse :=
  { id := 1, name := "W1", address := "Main street 1",
    telegramChatId := some 10, activatedAt := some 0, deactivatedAt := none,
    isActive := true, activationCode := none, maxOrdersPerDay := 100,
    timezone := "UTC" }

/-! ## Helper lemmas about the lifecycle service -/

/-- `accept_order` on any status other than `sent_to_partner` raises. -/
theorem acceptOrder_error {o : Order} (now : Int)
    (h : o.status ≠ OrderStatus.sentToPartner) :
    acceptOrder o now = .error .invalidState := by
  simp [acceptOrder, h]

/-- `set_cooking_time` on a status outside `\x7baccepted_by_partner, cooking\x7d`
raises. -/
theorem setCookingTime_error {o : Order} (ct : CookingTime)
    (er : Option Int) (now : Int)
    (h1 : o.status ≠ OrderStatus.acceptedByPartner)
    (h2 : o.status ≠ OrderStatus.cooking) :
    setCookingTime o ct er now = .error .invalidState := by
  simp [setCookingTime, h1, h2]

/-- `mark_as_ready_for_delivery` on a status other than `cooking` raises. -/
theorem markAsReadyForDelivery_error {o : Order}
    (h : o.status ≠ OrderStatus.cooking) :
    markAsReadyForDelivery o = .error .invalidState := by
  simp [markAsReadyForDelivery, h]

/-- `assign_courier` on a status other than `ready_for_delivery` raises. -/
theorem assignCourier_error {o : Order} (now : Int)
    (h : o.status ≠ OrderStatus.readyForDelivery) :
    assignCourier o now = .error .invalidState := by
  simp [assignCourier, h]

/-- `mark_as_delivered` on a status other than `on_delivery` raises. -/
theorem markAsDelivered_error {o : Order} (now : Int)
    (h : o.status ≠ OrderStatus.onDelivery) :
    markAsDelivered o now = .error .invalidState := by
  simp [markAsDelivered, h]

/-- `cancel_order` on a `delivered` or `cancelled` order raises. -/
theorem cancelOrder_error {o : Order}
    (h : o.status = OrderStatus.delivered ∨ o.status = OrderStatus.cancelled) :
    cancelOrder o = .error .invalidState := by
  simp [cancelOrder, h]

/-- Keys absent from an association list look up to `none`. -/
theorem lookupKey_eq_none {v : String} :
    ∀ {l : List (String × OrderStatus)}, (∀ p ∈ l, v ≠ p.1) →
      lookupKey v l = none := by
  intro l
  induction l with
  | nil => intro _; rfl
  | cons p rest ih =>
    intro h
    obtain ⟨k, s⟩ := p
    have hk : v ≠ k := h (k, s) (List.mem_cons_self _ _)
    simp only [lookupKey, if_neg (show ¬ k = v from fun hkv => hk hkv.symm)]
    exact ih (fun q hq => h q (List.mem_cons_of_mem _ hq))

/-! ## C8: Money formatting round trip -/

/-- C8: for every non-negative minor-unit amount `a`, formatting
`Money(amount=a)` to its decimal `"X.YY RUB"` string and re-deriving minor
units from that decimal string via `Money.from_decimal` yields a `Money`
whose amount is again `a`. -/
theorem money_format_roundtrip (a : Nat) :
    Money.fromDecimal (Money.formattedAmount ⟨a⟩) = ⟨a⟩ := by
  simp only [Money.fromDecimal, Money.formattedAmount, Money.mk.injEq]
  omega

/-! ## C9: totality of OrderStatus.from_value -/

/-- C9: `OrderStatus.from_value` is total: every canonical slug maps back to
its status (`from_value (s.value) = s`), every key of the label mapping maps
to its mapped status, and every other string silently yields `new`. -/
theorem orderStatus_fromValue_total :
    (∀ s : OrderStatus, OrderStatus.fromValue s.value = s) ∧
    (∀ p ∈ OrderStatus.statusMapping, OrderStatus.fromValue p.1 = p.2) ∧
    (∀ v : String, (∀ s : OrderStatus, v ≠ s.value) →
      (∀ p ∈ OrderStatus.statusMapping, v ≠ p.1) →
      OrderStatus.fromValue v = OrderStatus.new) := by
  refine ⟨?_, ?_, ?_⟩
  · intro s; cases s <;> rfl
  · decide
  · intro v hslug hmap
    have hfind : OrderStatus.all.find? (fun s => s.value = v) = none := by
      apply List.find?_eq_none.mpr
      intro s _
      simp only [decide_eq_true_eq]
      exact fun h => hslug s h.symm
    unfold OrderStatus.fromValue
    rw [hfind, lookupKey_eq_none hmap]

/-- Concrete instantiation of the totality theorem: an unknown label is
coerced to `new`. -/
theorem orderStatus_fromValue_total_witness :
    OrderStatus.fromValue "completely unknown" = OrderStatus.new :=
  orderStatus_fromValue_total.2.2 "completely unknown"
    (by intro s; cases s <;> decide) (by decide)

/-! ## C6: set_cooking_time -/

/-- C6: on an order in status `accepted_by_partner` or `cooking`,
`set_cooking_time(order, ct, expected_ready_at=None)` returns a new order
with status `cooking`, `cooking_time_minutes = ct.minutes` and
`expected_ready_at = accepted_at + ct.minutes` when `accepted_at` is set,
else `now + ct.minutes`; on any other status it raises an invalid-state
error. -/
theorem setCookingTime_spec (o : Order) (ct : CookingTime) (now : Int) :
    (o.status = OrderStatus.acceptedByPartner ∨ o.status = OrderStatus.cooking →
      setCookingTime o ct none now =
        .ok { o with
                status := .cooking,
                cookingTimeMinutes := some ct.minutes,
                expectedReadyAt := some
                  (match o.acceptedAt with
                   | some a => a + ct.minutes
                   | none => now + ct.minutes) }) ∧
    (o.status ≠ OrderStatus.acceptedByPartner ∧ o.status ≠ OrderStatus.cooking →
      setCookingTime o ct none now = .error .invalidState) := by
  constructor
  · intro h
    have hcond : ¬(o.status ≠ OrderStatus.acceptedByPartner ∧
        o.status ≠ OrderStatus.cooking) := by
      rcases h with h | h <;> simp [h]
    simp only [setCookingTime, if_neg hcond]
  · intro ⟨h1, h2⟩
    exact setCookingTime_error ct none now h1 h2

/-- Concrete instantiation of the `set_cooking_time` theorem on an accepted
order with a known `accepted_at`. -/
theorem setCookingTime_spec_witness :
    setCookingTime { sampleOrder .acceptedByPartner [] with acceptedAt := some 100 }
        ⟨30⟩ none 0 =
      .ok { sampleOrder .acceptedByPartner [] with
              status := .cooking,
              acceptedAt := some 100,
              cookingTimeMinutes := some 30,
              expectedReadyAt := some 130 } := by
  have h := (setCookingTime_spec
    { sampleOrder .acceptedByPartner [] with acceptedAt := some 100 } ⟨30⟩ 0).1
    (Or.inl rfl)
  simpa using h

/-! ## C1: order state machine -/

/-- Transition table of §4.3 of the specification, written from the spec's
words for comparison with the code's `can_transition_status`. -/
def specTransitionTable : List (OrderStatus × OrderStatus) :=
  [(.new, .sentToPartner),
   (.sentToPartner, .acceptedByPartner), (.sentToPartner, .cancelled),
   (.acceptedByPartner, .cooking), (.acceptedByPartner, .cancelled),
   (.cooking, .readyForDelivery), (.cooking, .cancelled),
   (.readyForDelivery, .onDelivery), (.readyForDelivery, .cancelled),
   (.onDelivery, .delivered), (.onDelivery, .cancelled)]

/-- Lifecycle service operation that targets a given status, per the claim:
`accept_order` targets `accepted_by_partner`, `set_cooking_time` targets
`cooking`, `mark_as_ready_for_delivery` targets `ready_for_delivery`,
`assign_courier` targets `on_delivery`, `mark_as_delivered` targets
`delivered`, `cancel_order` targets `cancelled`; no service operation
targets `new` or `sent_to_partner`. -/
def lifecycleOpTargeting (t : OrderStatus) (ct : CookingTime) (now : Int) :
    Option (Order → Except SvcError Order) :=
  match t with
  | .acceptedByPartner => some (fun o => acceptOrder o now)
  | .cooking => some (fun o => setCookingTime o ct none now)
  | .readyForDelivery => some markAsReadyForDelivery
  | .onDelivery => some (fun o => assignCourier o now)
  | .delivered => some (fun o => markAsDelivered o now)
  | .cancelled => some cancelOrder
  | _ => none

/-- C1 counterexample: the pair `(new, cancelled)` is not in the §4.3 table
(`can_transition_status new cancelled = false`), yet `cancel_order` — the
lifecycle operation targeting `cancelled` — succeeds on a `new` order and
changes its status, instead of raising an invalid-state error. -/
theorem lifecycle_table_counterexample :
    canTransitionStatus .new .cancelled = false ∧
    cancelOrder (sampleOrder .new []) =
      .ok { sampleOrder .new [] with status := .cancelled } := by
  constructor
  · rfl
  · rfl

/-- C1 amended: `can_transition_status` returns true exactly for the pairs of
the §4.3 table; for every pair `(from, to)` outside the table, the lifecycle
operation targeting `to` raises an invalid-state error on an order in status
`from` (producing no order at all) — except for the two transitions the
operations admit beyond the table: `set_cooking_time` also succeeds on an
order already `cooking`, and `cancel_order` also succeeds on a `new` order. -/
theorem lifecycle_state_machine (f t : OrderStatus) (o : Order)
    (ct : CookingTime) (now : Int) :
    (canTransitionStatus f t = decide ((f, t) ∈ specTransitionTable)) ∧
    (o.status = f → canTransitionStatus f t = false →
      (f, t) ≠ (.cooking, .cooking) → (f, t) ≠ (.new, .cancelled) →
      ∀ op, lifecycleOpTargeting t ct now = some op →
        op o = .error .invalidState) ∧
    (o.status = .cooking → (setCookingTime o ct none now).isOk = true) ∧
    (o.status = .new → (cancelOrder o).isOk = true) := by
  refine ⟨?_, ?_, ?_, ?_⟩
  · cases f <;> cases t <;> rfl
  · intro hf hc hne1 hne2 op hop
    cases t with
    | new => exact absurd hop (by simp [lifecycleOpTargeting])
    | sentToPartner => exact absurd hop (by simp [lifecycleOpTargeting])
    | acceptedByPartner =>
      obtain rfl : op = fun o => acceptOrder o now := by
        simpa [lifecycleOpTargeting] using hop.symm
      refine acceptOrder_error now ?_
      rw [hf]; intro hEq; rw [hEq] at hc; exact absurd hc (by decide)
    | cooking =>
      obtain rfl : op = fun o => setCookingTime o ct none now := by
        simpa [lifecycleOpTargeting] using hop.symm
      refine setCookingTime_error ct none now ?_ ?_
      · rw [hf]; intro hEq; rw [hEq] at hc; exact absurd hc (by decide)
      · rw [hf]; intro hEq; rw [hEq] at hne1; exact hne1 rfl
    | readyForDelivery =>
      obtain rfl : op = markAsReadyForDelivery := by
        simpa [lifecycleOpTargeting] using hop.symm
      refine markAsReadyForDelivery_error ?_
      rw [hf]; intro hEq; rw [hEq] at hc; exact absurd hc (by decide)
    | onDelivery =>
      obtain rfl : op = fun o => assignCourier o now := by
        simpa [lifecycleOpTargeting] using hop.symm
      refine assignCourier_error now ?_
      rw [hf]; intro hEq; rw [hEq] at hc; exact absurd hc (by decide)
    | delivered =>
      obtain rfl : op = fun o => markAsDelivered o now := by
        simpa [lifecycleOpTargeting] using hop.symm
      refine markAsDelivered_error now ?_
      rw [hf]; intro hEq; rw [hEq] at hc; exact absurd hc (by decide)
    | cancelled =>
      obtain rfl : op = cancelOrder := by
        simpa [lifecycleOpTargeting] using hop.symm
      refine cancelOrder_error ?_
      rw [hf]
      cases f with
      | new => exact absurd rfl hne2
      | sentToPartner => exact absurd hc (by decide)
      | acceptedByPartner => exact absurd hc (by decide)
      | cooking => exact absurd hc (by decide)
      | readyForDelivery => exact absurd hc (by decide)
      | onDelivery => exact absurd hc (by decide)
      | delivered => exact Or.inl rfl
      | cancelled => exact Or.inr rfl
  · intro h
    have : ¬(o.status ≠ OrderStatus.acceptedByPartner ∧
        o.status ≠ OrderStatus.cooking) := by simp [h]
    simp [setCookingTime, this, Except.isOk, Except.toBool]
  · intro h
    have : ¬(o.status = OrderStatus.delivered ∨
        o.status = OrderStatus.cancelled) := by simp [h]
    simp [cancelOrder, this, Except.isOk, Except.toBool]

/-- Concrete instantiation of the amended state-machine theorem:
`accept_order` raises on a delivered order, the pair
`(delivered, accepted_by_partner)` being outside the table. -/
theorem lifecycle_state_machine_witness :
    acceptOrder (sampleOrder .delivered []) 0 = .error .invalidState :=
  (lifecycle_state_machine .delivered .acceptedByPartner
      (sampleOrder .delivered []) ⟨30⟩ 0).2.1
    rfl (by decide) (by decide) (by decide)
    (fun o => acceptOrder o 0) rfl

/-! ## C2: accept-order idempotence -/

/-- Warehouse-repository stub exposing only `sampleWarehouse` under id 1. -/
def getWarehouse1 : Nat → Option Warehouse :=
  fun i => if i = 1 then some sampleWarehouse else none

/-- Order-repository stub for the C2 counterexample: the order is already
`accepted_by_partner` but belongs to warehouse 2, not warehouse 1. -/
def c2OtherWarehouseOrder : Order :=
  { sampleOrder .acceptedByPartner [] with warehouseId := 2 }

/-- C2 counterexample: accepting an order already in `accepted_by_partner`
that belongs to a different warehouse raises Order-Already-Accepted, not the
Order-Not-Found the claim states. -/
theorem acceptOrder_other_warehouse_counterexample :
    acceptOrderUseCase getWarehouse1 (fun _ => some c2OtherWarehouseOrder)
        ⟨5, 1, 10⟩ 0 = .error .orderAlreadyAccepted ∧
    acceptOrderUseCase getWarehouse1 (fun _ => some c2OtherWarehouseOrder)
        ⟨5, 1, 10⟩ 0 ≠ .error .orderNotFound := by
  refine ⟨rfl, ?_⟩
  intro h
  rw [show acceptOrderUseCase getWarehouse1 (fun _ => some c2OtherWarehouseOrder)
      ⟨5, 1, 10⟩ 0 = .error .orderAlreadyAccepted from rfl] at h
  injection h with h2
  exact absurd h2 (by decide)

/-- C2 amended: when the warehouse resolves and is bound to the caller's
chat, accepting an order already in `accepted_by_partner` for the same
warehouse returns the existing order unchanged without raising, while an
order in `accepted_by_partner` for a different warehouse — like one in any
later in-progress status for any warehouse — raises Order-Already-Accepted
(not Order-Not-Found). -/
theorem acceptOrder_idempotence (gw : Nat → Option Warehouse)
    (go : Nat → Option Order) (data : AcceptOrderDTO) (now : Int)
    (w : Warehouse) (o : Order)
    (hw : gw data.warehouseId = some w)
    (hb : w.telegramChatId = some data.chatId)
    (ho : go data.orderId = some o) :
    (o.status = OrderStatus.acceptedByPartner →
      o.warehouseId = data.warehouseId →
      acceptOrderUseCase gw go data now = .ok o) ∧
    ((o.status = OrderStatus.acceptedByPartner ∨
      o.status = OrderStatus.cooking ∨
      o.status = OrderStatus.readyForDelivery ∨
      o.status = OrderStatus.onDelivery ∨
      o.status = OrderStatus.delivered) →
      ¬(o.warehouseId = data.warehouseId ∧
        o.status = OrderStatus.acceptedByPartner) →
      acceptOrderUseCase gw go data now = .error .orderAlreadyAccepted) := by
  constructor
  · intro hs hwid
    simp only [acceptOrderUseCase, hw, hb, ho, ne_eq, not_true_eq_false,
      if_false]
    rw [if_pos (Or.inl hs), if_pos ⟨hwid, hs⟩]
  · intro hs hnot
    simp only [acceptOrderUseCase, hw, hb, ho, ne_eq, not_true_eq_false,
      if_false]
    rw [if_pos hs, if_neg hnot]

/-- Concrete instantiation of the idempotence theorem: re-accepting an
already-accepted order of the same warehouse returns it unchanged. -/
theorem acceptOrder_idempotence_witness :
    acceptOrderUseCase getWarehouse1
        (fun _ => some (sampleOrder .acceptedByPartner [])) ⟨5, 1, 10⟩ 0 =
      .ok (sampleOrder .acceptedByPartner []) :=
  (acceptOrder_idempotence getWarehouse1
      (fun _ => some (sampleOrder .acceptedByPartner [])) ⟨5, 1, 10⟩ 0
      sampleWarehouse (sampleOrder .acceptedByPartner [])
      rfl rfl rfl).1 rfl rfl

/-! ## C7: photo cap -/

/-- Order with two photos, for the C7 counterexample. -/
def twoPhotoOrder : Order := sampleOrder .cooking ["p1", "p2"]

/-- Order with three photos (the configured cap), for the C7 counterexample. -/
def threePhotoOrder : Order := sampleOrder .cooking ["p1", "p2", "p3"]

/-- C7 counterexample: the add-photo use case does not append at all — with
2 photos present it returns the order still holding 2 photos (the claim says
the list reaches length 3), and with 3 photos present it succeeds instead of
failing with Capacity-Exceeded. -/
theorem addPhoto_cap_counterexample :
    addOrderPhotoUseCase getWarehouse1 (fun _ => some twoPhotoOrder)
        ⟨5, 1, 10, "p3"⟩ = .ok twoPhotoOrder ∧
    twoPhotoOrder.photos.length = 2 ∧
    addOrderPhotoUseCase getWarehouse1 (fun _ => some threePhotoOrder)
        ⟨5, 1, 10, "p4"⟩ = .ok threePhotoOrder := by
  exact ⟨rfl, rfl, rfl⟩

/-- C7 amended: after the warehouse/order resolution checks, the add-photo
use case best-effort forwards the photo to the CRM and returns the order
unchanged — it neither appends to the photo list nor raises
Capacity-Exceeded; the per-order cap of 3 is enforced only by the entity
method `Order.add_photo`, which the use case never invokes: under the cap it
appends the reference, at the cap it fails and leaves the list unchanged. -/
theorem addOrderPhoto_spec (gw : Nat → Option Warehouse)
    (go : Nat → Option Order) (data : AddOrderPhotoDTO)
    (w : Warehouse) (o : Order) (u : String)
    (hw : gw data.warehouseId = some w)
    (hb : w.telegramChatId = some data.chatId)
    (ho : go data.orderId = some o)
    (hwid : o.warehouseId = data.warehouseId) :
    addOrderPhotoUseCase gw go data = .ok o ∧
    (o.photos.length < 3 →
      o.addPhoto u = .ok { o with photos := o.photos ++ [u] }) ∧
    (o.photos.length ≥ 3 → ∃ msg, o.addPhoto u = .error msg) := by
  refine ⟨?_, ?_, ?_⟩
  · simp only [addOrderPhotoUseCase, hw, hb, ho, hwid, ne_eq,
      not_true_eq_false, if_false]
  · intro h
    simp [Order.addPhoto, Nat.not_le.mpr h]
  · intro h
    exact ⟨"Maximum number of photos per order is 3",
      by simp [Order.addPhoto, h]⟩

/-- Concrete instantiation of the add-photo theorem: the use case returns the
two-photo order unchanged, and the entity method would append a third photo. -/
theorem addOrderPhoto_spec_witness :
    addOrderPhotoUseCase getWarehouse1 (fun _ => some twoPhotoOrder)
        ⟨5, 1, 10, "q"⟩ = .ok twoPhotoOrder ∧
    twoPhotoOrder.addPhoto "q" =
      .ok { twoPhotoOrder with photos := ["p1", "p2", "q"] } := by
  have h := addOrderPhoto_spec getWarehouse1 (fun _ => some twoPhotoOrder)
    ⟨5, 1, 10, "q"⟩ sampleWarehouse twoPhotoOrder "q" rfl rfl rfl rfl
  exact ⟨h.1, by simpa using h.2.1 (by decide)⟩

/-! ## C10: local deactivation by chat id -/

/-- C10: `deactivate_by_telegram_chat_id` returns `False` and leaves every
row unchanged when no warehouse is bound to the chat id or when the storage
layer fails; when exactly one warehouse is bound to the chat id it returns
`True` and rewrites exactly the rows carrying that warehouse's id with
`is_active = False`, `deactivated_at` stamped and `telegram_chat_id`
cleared, all other fields and rows untouched (the rewrite is the row map
with `deactivateRow` applied at the matching id). -/
theorem deactivateByChat_spec (db : List Warehouse) (c : Int) (now : Int) :
    (deactivateByTelegramChatId db c now true = (false, db)) ∧
    (db.filter (fun w => w.telegramChatId = some c) = [] →
      deactivateByTelegramChatId db c now false = (false, db)) ∧
    (∀ m, db.filter (fun w => w.telegramChatId = some c) = [m] →
      deactivateByTelegramChatId db c now false =
        (true, db.map (fun w => if w.id = m.id then deactivateRow w now else w))) := by
  refine ⟨?_, ?_, ?_⟩
  · simp [deactivateByTelegramChatId]
  · intro h
    simp [deactivateByTelegramChatId, h]
  · intro m h
    simp [deactivateByTelegramChatId, h]

/-- Second sample warehouse, bound to a different chat, for the C10 witness. -/
def otherWarehouse : Warehouse :=
  { sampleWarehouse with id := 2, name := "W2", telegramChatId := some 20 }

/-- Concrete instantiation of the deactivation theorem: with warehouses 1
(chat 10) and 2 (chat 20) stored, deactivating chat 10 flips exactly
warehouse 1. -/
theorem deactivateByChat_spec_witness :
    deactivateByTelegramChatId [sampleWarehouse, otherWarehouse] 10 7 false =
      (true, [deactivateRow sampleWarehouse 7, otherWarehouse]) := by
  have h := (deactivateByChat_spec [sampleWarehouse, otherWarehouse] 10 7).2.2
    sampleWarehouse (by decide)
  simpa using h

/-! ## C4: CRM request retry loop -/

/-- Unfolding equation of one iteration of the retry loop. -/
theorem makeRequestLoop_succ (noRetry : List Nat) (maxR exp : Nat)
    (att : Nat → Attempt) (fuel rc : Nat) :
    makeRequestLoop noRetry maxR exp att (fuel + 1) rc =
      match att rc with
      | .transportError =>
        if rc + 1 > maxR then ⟨.retriesExhausted, 1, 0⟩
        else
          ⟨(makeRequestLoop noRetry maxR exp att fuel (rc + 1)).outcome,
           (makeRequestLoop noRetry maxR exp att fuel (rc + 1)).attemptsMade + 1,
           (makeRequestLoop noRetry maxR exp att fuel (rc + 1)).sleeps + 1⟩
      | .response s _ =>
        if s = exp then ⟨.success (match att rc with | .response _ b => b | _ => ""), 1, 0⟩
        else if s ∈ noRetry ∧ rc > 0 then ⟨.noRetryError s rc, 1, 0⟩
        else if rc + 1 > maxR then ⟨.retriesExhausted, 1, 0⟩
        else
          ⟨(makeRequestLoop noRetry maxR exp att fuel (rc + 1)).outcome,
           (makeRequestLoop noRetry maxR exp att fuel (rc + 1)).attemptsMade + 1,
           (makeRequestLoop noRetry maxR exp att fuel (rc + 1)).sleeps + 1⟩ := by
  cases hatt : att rc <;> simp [makeRequestLoop, hatt]

/-- Behaviour of the retry loop from an arbitrary loop entry: at the entry
`retry_count = rc` with remaining fuel `fuel + 1` (so that
`rc + (fuel + 1) = max_retries + 1`), the loop makes between 1 and
`fuel + 1` attempts with exactly one sleep between consecutive attempts, a
no-retry integration error is only ever raised on an attempt with positive
index whose response carried a non-expected no-retry status, exhaustion
consumes all remaining attempts, and the post-loop safety raise is
unreachable. -/
theorem makeRequestLoop_spec (noRetry : List Nat) (maxR exp : Nat)
    (att : Nat → Attempt) :
    ∀ fuel rc, rc + (fuel + 1) = maxR + 1 →
      (1 ≤ (makeRequestLoop noRetry maxR exp att (fuel + 1) rc).attemptsMade ∧
        (makeRequestLoop noRetry maxR exp att (fuel + 1) rc).attemptsMade ≤ fuel + 1) ∧
      (makeRequestLoop noRetry maxR exp att (fuel + 1) rc).sleeps + 1 =
        (makeRequestLoop noRetry maxR exp att (fuel + 1) rc).attemptsMade ∧
      (∀ s n, (makeRequestLoop noRetry maxR exp att (fuel + 1) rc).outcome =
          .noRetryError s n →
        0 < n ∧ s ∈ noRetry ∧ s ≠ exp ∧ ∃ b, att n = .response s b) ∧
      ((makeRequestLoop noRetry maxR exp att (fuel + 1) rc).outcome =
          .retriesExhausted →
        (makeRequestLoop noRetry maxR exp att (fuel + 1) rc).attemptsMade = fuel + 1) ∧
      (makeRequestLoop noRetry maxR exp att (fuel + 1) rc).outcome ≠ .unreachable := by
  intro fuel
  induction fuel with
  | zero =>
    intro rc hinv
    rw [makeRequestLoop_succ]
    cases hatt : att rc with
    | transportError =>
      dsimp only
      rw [if_pos (show rc + 1 > maxR by omega)]
      refine ⟨⟨Nat.le_refl 1, Nat.le_refl 1⟩, rfl, ?_, fun _ => rfl, ?_⟩
      · intro s2 n h
        simp at h
      · simp
    | response s b =>
      dsimp only
      by_cases hexp : s = exp
      · rw [if_pos hexp]
        refine ⟨⟨Nat.le_refl 1, Nat.le_refl 1⟩, rfl, ?_, ?_, ?_⟩
        · intro s2 n h
          simp at h
        · intro h
          simp at h
        · simp
      · rw [if_neg hexp]
        by_cases hnr : s ∈ noRetry ∧ rc > 0
        · rw [if_pos hnr]
          refine ⟨⟨Nat.le_refl 1, Nat.le_refl 1⟩, rfl, ?_, ?_, ?_⟩
          · intro s2 n h
            simp only [RunResult.outcome] at h
            rw [ReqOutcome.noRetryError.injEq] at h
            obtain ⟨hh1, hh2⟩ := h
            subst hh1; subst hh2
            exact ⟨hnr.2, hnr.1, hexp, b, hatt⟩
          · intro h
            simp at h
          · simp
        · rw [if_neg hnr, if_pos (show rc + 1 > maxR by omega)]
          refine ⟨⟨Nat.le_refl 1, Nat.le_refl 1⟩, rfl, ?_, fun _ => rfl, ?_⟩
          · intro s2 n h
            simp at h
          · simp
  | succ f ih =>
    intro rc hinv
    obtain ⟨⟨h1, h2⟩, h3, h4, h5, h6⟩ := ih (rc + 1) (by omega)
    rw [makeRequestLoop_succ]
    cases hatt : att rc with
    | transportError =>
      dsimp only
      rw [if_neg (show ¬ rc + 1 > maxR by omega)]
      refine ⟨⟨Nat.succ_le_succ (Nat.zero_le _), Nat.succ_le_succ h2⟩,
        congrArg (· + 1) h3, ?_, ?_, h6⟩
      · intro s2 n h
        exact h4 s2 n h
      · intro h
        exact congrArg (· + 1) (h5 h)
    | response s b =>
      dsimp only
      by_cases hexp : s = exp
      · rw [if_pos hexp]
        refine ⟨⟨Nat.le_refl 1, Nat.succ_le_succ (Nat.zero_le _)⟩, rfl, ?_, ?_, ?_⟩
        · intro s2 n h
          simp at h
        · intro h
          simp at h
        · simp
      · rw [if_neg hexp]
        by_cases hnr : s ∈ noRetry ∧ rc > 0
        · rw [if_pos hnr]
          refine ⟨⟨Nat.le_refl 1, Nat.succ_le_succ (Nat.zero_le _)⟩, rfl, ?_, ?_, ?_⟩
          · intro s2 n h
            simp only [RunResult.outcome] at h
            rw [ReqOutcome.noRetryError.injEq] at h
            obtain ⟨hh1, hh2⟩ := h
            subst hh1; subst hh2
            exact ⟨hnr.2, hnr.1, hexp, b, hatt⟩
          · intro h
            simp at h
          · simp
        · rw [if_neg hnr, if_neg (show ¬ rc + 1 > maxR by omega)]
          refine ⟨⟨Nat.succ_le_succ (Nat.zero_le _), Nat.succ_le_succ h2⟩,
            congrArg (· + 1) h3, ?_, ?_, h6⟩
          · intro s2 n h
            exact h4 s2 n h
          · intro h
            exact congrArg (· + 1) (h5 h)

/-- C4: `_make_request` performs at most `max_retries + 1` attempts with one
fixed-delay sleep between consecutive attempts; a no-retry status produces
the non-retryable integration error carrying that status only on an attempt
with retry counter greater than zero (on the very first attempt it is
treated as a retryable transient failure); once the counter exceeds
`max_retries` the loop raises the non-retryable error wrapping the last
transport error, having used every attempt; the post-loop safety raise is
unreachable. -/
theorem makeRequest_retry_spec (noRetry : List Nat) (maxR exp : Nat)
    (att : Nat → Attempt) :
    (1 ≤ (makeRequest noRetry maxR exp att).attemptsMade ∧
      (makeRequest noRetry maxR exp att).attemptsMade ≤ maxR + 1) ∧
    (makeRequest noRetry maxR exp att).sleeps + 1 =
      (makeRequest noRetry maxR exp att).attemptsMade ∧
    (∀ s n, (makeRequest noRetry maxR exp att).outcome = .noRetryError s n →
      0 < n ∧ s ∈ noRetry ∧ s ≠ exp ∧ ∃ b, att n = .response s b) ∧
    ((makeRequest noRetry maxR exp att).outcome = .retriesExhausted →
      (makeRequest noRetry maxR exp att).attemptsMade = maxR + 1) ∧
    (makeRequest noRetry maxR exp att).outcome ≠ .unreachable :=
  makeRequestLoop_spec noRetry maxR exp att maxR 0 (by omega)

/-- Concrete instantiation of the retry theorem: with `max_retries = 3` and
every attempt failing at the transport level, the client makes exactly 4
attempts before raising the exhaustion error. -/
theorem makeRequest_retry_spec_witness :
    (makeRequest [400, 401, 403, 404] 3 200 (fun _ => .transportError)).attemptsMade
      = 3 + 1 :=
  (makeRequest_retry_spec [400, 401, 403, 404] 3 200
    (fun _ => .transportError)).2.2.2.1 rfl

/-! ## C5: webhook signature gate -/

/-- The full-scan comparison agrees with equality of character lists. -/
theorem ctEqList_eq_true_iff : ∀ xs ys : List Char, ctEqList xs ys = true ↔ xs = ys := by
  intro xs
  induction xs with
  | nil =>
    intro ys
    cases ys <;> simp [ctEqList]
  | cons x xs ih =>
    intro ys
    cases ys with
    | nil => simp [ctEqList]
    | cons y ys =>
      simp [ctEqList, Bool.and_eq_true, decide_eq_true_eq, ih, and_comm]

/-- `hmac.compare_digest` agrees with string equality. -/
theorem compareDigest_eq_true_iff (a b : String) : compareDigest a b = true ↔ a = b := by
  unfold compareDigest
  rw [ctEqList_eq_true_iff]
  refine ⟨fun h => ?_, fun h => by rw [h]⟩
  cases a
  cases b
  exact congrArg String.mk h

/-- C5: the new-order webhook route accepts a request only when the presented
credential equals the hex HMAC-SHA256, under the configured secret, of the
canonical sorted-key JSON re-serialization of the parsed payload;
`_verify_signature` computes exactly that equality through the constant-time
`hmac.compare_digest`; and a request whose credential differs is answered
401 with zero warehouse lookups and zero chat messages sent. -/
theorem webhook_signature_gate (deps : WebhookDeps) (payload : JVal)
    (credential : String) :
    (verifySignature deps payload credential =
      decide (deps.hmacHex deps.secretKey payload.dumps = credential)) ∧
    (credential ≠ deps.hmacHex deps.secretKey payload.dumps →
      handleNewOrderWebhook deps payload credential =
        ⟨.unauthorized, 0, 0⟩) ∧
    ((handleNewOrderWebhook deps payload credential).result ≠ .unauthorized →
      credential = deps.hmacHex deps.secretKey payload.dumps) := by
  have hv : verifySignature deps payload credential =
      decide (deps.hmacHex deps.secretKey payload.dumps = credential) := by
    by_cases h : deps.hmacHex deps.secretKey payload.dumps = credential
    · rw [decide_eq_true h]
      exact (compareDigest_eq_true_iff _ _).mpr h
    · rw [decide_eq_false h]
      cases hb : compareDigest (deps.hmacHex deps.secretKey payload.dumps)
          credential
      · exact hb
      · exact absurd ((compareDigest_eq_true_iff _ _).mp hb) h
  refine ⟨hv, ?_, ?_⟩
  · intro hne
    have : verifySignature deps payload credential = false := by
      rw [hv, decide_eq_false (fun h => hne h.symm)]
    simp [handleNewOrderWebhook, this]
  · intro hres
    by_contra hne
    have : verifySignature deps payload credential = false := by
      rw [hv, decide_eq_false (fun h => hne h.symm)]
    exact hres (by simp [handleNewOrderWebhook, this])

/-- Webhook environment for the concrete witness: an abstract keyed digest
that tags the message with the key. -/
def witnessWebhookDeps : WebhookDeps :=
  { secretKey := "secret"
    hmacHex := fun k m => k ++ ":" ++ m
    parseOrderDTO := fun _ => none
    getWarehouse := fun _ => none
    sendOk := false }

/-- Concrete instantiation of the signature-gate theorem: a forged credential
is answered 401 with no warehouse lookup and no message sent. -/
theorem webhook_signature_gate_witness :
    handleNewOrderWebhook witnessWebhookDeps JVal.null "forged" =
      ⟨.unauthorized, 0, 0⟩ :=
  (webhook_signature_gate witnessWebhookDeps JVal.null "forged").2.1 (by decide)

/-! ## C3: statistics placeholder figures -/

/-- C3: executed for warehouse 1 bound to the caller's chat with an empty
statistics cache, the weekly statistics use case issues no CRM request at
all and returns (and caches) the hard-coded placeholder figures — 126
orders, revenue 164780, average check 1307.78 — instead of figures computed
from CRM data or a Statistics-Calculation error. -/
theorem weekly_statistics_placeholder :
    getWeeklyStatisticsUseCase getWarehouse1 (fun _ => none) 1 10 =
      ⟨.ok ⟨1, 126, (164780 : Rat), (130778 : Rat) / 100⟩,
       [(1, ⟨1, 126, (164780 : Rat), (130778 : Rat) / 100⟩, 60)], 0⟩ := rfl

end WarehouseBot
